import Mathlib

/-!
Shallow embedding of the `nestjs-api-connector` repository's core:
the transformation engine (`TransformerService`), the auth strategy
providers (`auth.strategy`), the execution orchestrator
(`CorrectorEngine`), and the boundary controller's auth-override gate
(`CorrectorController.executeCorrection`).

JavaScript values are modelled by `Json`; the JS value `undefined` is
modelled as `Option.none` (so `Option Json` stands for a possibly
undefined value).  Numbers are modelled as `Int` (the claims under
verification exercise no fractional arithmetic); `NaN` results of
`Number(...)` are abstracted as `Json.null`.  External collaborators
(the HTTP transport, token endpoints, `ajv` schema validators, scripted
custom transforms run through `new Function`) are modelled as explicit
oracle parameters, and thrown JS exceptions as `Except`.
-/

/-- A JSON-like JS value.  JS `undefined` is represented by `none` at
`Option Json`, never by a constructor of this type. -/
inductive Json where
  | null
  | bool (b : Bool)
  | num (n : Int)
  | str (s : String)
  | arr (elems : List Json)
  | obj (fields : List (String × Json))
deriving Inhabited

/-- JS truthiness of a defined value. -/
def jsTruthy : Json → Bool
  | .null => false
  | .bool b => b
  | .num n => n != 0
  | .str s => !s.isEmpty
  | .arr _ => true
  | .obj _ => true

/-- JS truthiness of a possibly-undefined value. -/
def jsTruthyOpt : Option Json → Bool
  | none => false
  | some v => jsTruthy v

/-- Truthiness of an optional string field (JS: absent or empty is falsy). -/
def strOptTruthy : Option String → Bool
  | none => false
  | some s => !s.isEmpty

/-- `str.split(c)` over the character list (always at least one part). -/
def splitOnChar (c : Char) : List Char → List (List Char)
  | [] => [[]]
  | x :: xs =>
    if x = c then [] :: splitOnChar c xs
    else
      match splitOnChar c xs with
      | h :: t => (x :: h) :: t
      | [] => [[x]]

/-- `path.split('.')`. -/
def splitDot (s : String) : List String :=
  (splitOnChar '.' s.data).map (fun cs => (⟨cs⟩ : String))

/-- `condition.split('==')` (a two-character separator, scanned left to
right as JS does). -/
def splitEqEq : List Char → List (List Char)
  | [] => [[]]
  | '=' :: '=' :: xs => [] :: splitEqEq xs
  | x :: xs =>
    match splitEqEq xs with
    | h :: t => (x :: h) :: t
    | [] => [[x]]

/-- JS `s.trim()` (common whitespace). -/
def jsTrim (s : String) : String :=
  let isWs := fun (c : Char) => c = ' ' || c = '\t' || c = '\n' || c = '\r'
  ⟨((s.data.dropWhile isWs).reverse.dropWhile isWs).reverse⟩

/-- The condition parser's `replace(^quote|quote$)`: strip one leading
and one trailing quote character. -/
def stripOuterQuotes (s : String) : String :=
  let d1 :=
    match s.data with
    | '\'' :: rest => rest
    | '"' :: rest => rest
    | l => l
  let d2 :=
    match d1.reverse with
    | '\'' :: rest => rest.reverse
    | '"' :: rest => rest.reverse
    | _ => d1
  (⟨d2⟩ : String)

/-- ASCII `toUpperCase` (the auth-type tags are ASCII). -/
def asciiUpper (s : String) : String :=
  ⟨s.data.map (fun c => if 'a' ≤ c && c ≤ 'z' then Char.ofNat (c.toNat - 32) else c)⟩

/-- ASCII `toLowerCase`. -/
def asciiLower (s : String) : String :=
  ⟨s.data.map (fun c => if 'A' ≤ c && c ≤ 'Z' then Char.ofNat (c.toNat + 32) else c)⟩

/-- JS `s.startsWith('$.')`. -/
def startsWithDollarDot (s : String) : Bool :=
  match s.data with
  | '$' :: '.' :: _ => true
  | _ => false

/-- `Array.prototype.join(',')`. -/
def joinComma : List String → String
  | [] => ""
  | [x] => x
  | x :: y :: rest => x ++ "," ++ joinComma (y :: rest)

/-- First-match lookup in a JS object's field list (property read). -/
def objGet : List (String × Json) → String → Option Json
  | [], _ => none
  | (k, v) :: rest, key => if k = key then some v else objGet rest key

/-- JS property write: replace the first binding of `key` in place, or
append a new binding (JS property-order semantics). -/
def objSet : List (String × Json) → String → Json → List (String × Json)
  | [], key, v => [(key, v)]
  | (k, w) :: rest, key, v =>
    if k = key then (k, v) :: rest else (k, w) :: objSet rest key v

/-- Delete a property (the controller's `delete config.authType`). -/
def objDelete : List (String × Json) → String → List (String × Json)
  | [], _ => []
  | (k, w) :: rest, key =>
    if k = key then rest else (k, w) :: objDelete rest key

/-- JS object spread `{...a, ...b}`: keys of `b` override, preserving
the position of keys already present. -/
def mergeObj (a b : List (String × Json)) : List (String × Json) :=
  b.foldl (fun acc kv => objSet acc kv.1 kv.2) a

mutual
/-- JS `String(value)` on a defined value. -/
def jsToStringJ : Json → String
  | .null => "null"
  | .bool b => if b then "true" else "false"
  | .num n => toString n
  | .str s => s
  | .arr xs => joinComma (jsListToString xs)
  | .obj _ => "[object Object]"

def jsListToString : List Json → List String
  | [] => []
  | x :: xs => jsToStringJ x :: jsListToString xs
end

/-- JS `String(value)` on a possibly-undefined value. -/
def jsToString : Option Json → String
  | none => "undefined"
  | some v => jsToStringJ v

/-- `Object.keys(x).length === 0` test used when synthesizing an error
source in `CorrectorEngine.execute`. -/
def jsKeysEmpty : Json → Bool
  | .obj [] => true
  | .obj _ => false
  | .arr xs => xs.isEmpty
  | _ => true

/-- Path cleanup shared by the evaluator: strip a leading `"$."`. -/
def cleanPath (path : String) : String :=
  match path.data with
  | '$' :: '.' :: rest => (⟨rest⟩ : String)
  | _ => path

/-- Descend through object fields along dotted segments; a missing
segment or a non-object intermediate yields `none` (JS `undefined`). -/
def jpDescend : Json → List String → Option Json
  | j, [] => some j
  | .obj fs, seg :: rest =>
    match objGet fs seg with
    | some v => jpDescend v rest
    | none => none
  | _, _ :: _ => none

/-- `jsonpath.value(obj, path)` for the dotted-path subset the mappings
use.  jsonpath throws on a non-object subject or an empty/degenerate
path expression; those throws are modelled as `.error`. -/
def jpValueE (j : Json) (path : String) : Except String (Option Json) :=
  match j with
  | .obj _ =>
    if path.isEmpty then .error "invalid jsonpath expression"
    else if path = "$" then .ok (some j)
    else
      let segs := splitDot (cleanPath path)
      if segs.any (fun s => s.isEmpty) then .error "invalid jsonpath expression"
      else .ok (jpDescend j segs)
  | .arr _ =>
    if path.isEmpty then .error "invalid jsonpath expression"
    else if path = "$" then .ok (some j)
    else
      let segs := splitDot (cleanPath path)
      if segs.any (fun s => s.isEmpty) then .error "invalid jsonpath expression"
      else .ok (jpDescend j segs)
  | _ => .error "jsonpath requires an object or array subject"

/-- `jsonpath.value(source, path)` called on a possibly-undefined
subject (jsonpath throws on `undefined`). -/
def jpSrcE (src : Option Json) (path : String) : Except String (Option Json) :=
  match src with
  | none => .error "jsonpath requires an object"
  | some j => jpValueE j path

/-- `TransformerService.getValue`: jsonpath lookup with the throw
swallowed (`try { jsonpath.value } catch { return undefined }`). -/
def getValue (src : Option Json) (path : String) : Option Json :=
  match jpSrcE src path with
  | .ok v => v
  | .error _ => none

/-- Whether any remaining dotted segment is nonempty (empty segments
are skipped by `if (part)` / `if (lastPart)`). -/
def segsHaveNonempty (segs : List String) : Bool :=
  segs.any (fun s => !s.isEmpty)

/-- One step of `TransformerService.setValue`'s descent: walk the
non-final dotted segments, creating `{}` where the field is absent or
falsy, descending where it is an object.  Descending into a truthy
*primitive* makes the next nonempty segment's property assignment land
on a primitive and throw a `TypeError` (class bodies are strict-mode
code; a sloppy build walks onto `undefined` and throws one step later)
— modelled as `.error`; if only empty segments remain, nothing is
written and nothing thrown.  An *array* intermediate accepts named
properties in JS, so the walk succeeds but the writes are invisible in
the JSON tree (numeric indices and String's own properties are
abstracted away; property reads on primitives are modelled as
undefined). -/
def setParts : Json → List String → Json → Except String Json
  | j, [], _ => .ok j
  | j, [last], v =>
    if last.isEmpty then .ok j
    else
      match j with
      | .obj fs => .ok (.obj (objSet fs last v))
      | .arr _ => .ok j
      | _ => .error "TypeError: cannot create property on a primitive"
  | j, seg :: rest, v =>
    if seg.isEmpty then setParts j rest v
    else
      match j with
      | .obj fs =>
        match objGet fs seg with
        | some child =>
          if jsTruthy child then
            match child with
            | .obj _ => (setParts child rest v).map (fun c => Json.obj (objSet fs seg c))
            | .arr _ => .ok (.obj fs)
            | _ =>
              if segsHaveNonempty rest then
                .error "TypeError: cannot create property on a primitive"
              else .ok (.obj fs)
          else (setParts (Json.obj []) rest v).map (fun c => Json.obj (objSet fs seg c))
        | none => (setParts (Json.obj []) rest v).map (fun c => Json.obj (objSet fs seg c))
      | .arr _ => .ok j
      | _ => .error "TypeError: cannot create property on a primitive"

/-- `TransformerService.setValue(obj, path, value)`: dotted write with
intermediate objects created on demand; throws (`.error`) when the
walk crosses a truthy primitive (see `setParts`). -/
def setValue (j : Json) (path : String) (v : Json) : Except String Json :=
  setParts j (splitDot (cleanPath path)) v

/-- A named custom transform (`TransformDefinition` from
`mapping-config.interface`): carries a script body. -/
structure TransformDefinition where
  logic : String
deriving Inhabited

/-- Oracle for `new Function('value', body)(value)`: given the script
body and the input value, either a result (possibly `undefined`) or a
thrown error message.  Function construction errors (syntax) are also
`.error`. -/
abbrev RunScript := String → Option Json → Except String (Option Json)

/-- One `FieldRule` of a mapping (`mappings` array element). -/
structure FieldRule where
  source : String
  target : String
  condition : Option String := none
  valueIfTrue : Option Json := none
  valueIfFalse : Option Json := none
  default : Option Json := none
  required : Bool := false
  transform : Option String := none

/-- A `RequestMapping`/`ResponseMapping` (`TransformSpec`). -/
structure Mapping where
  type : String
  root : Option String := none
  outputWrapper : Option String := none
  logic : Option String := none
  mappings : Option (List FieldRule) := none
  defaults : Option (List (String × Json)) := none

/-- `TransformerService.evaluateCondition`. -/
def evaluateCondition (data : Option Json) (condition : String) : Bool :=
  let parts := (splitEqEq condition.data).map (fun cs => (⟨cs⟩ : String))
  if parts.length > 1 then
    let path := stripOuterQuotes (jsTrim (parts.headD ""))
    let val := stripOuterQuotes (jsTrim ((parts.drop 1).headD ""))
    if !path.isEmpty then jsToString (getValue data path) = val
    else jsTruthyOpt (getValue data condition)
  else jsTruthyOpt (getValue data condition)

/-- `TransformerService.executeCustomLogic`: run the script; any thrown
error is caught and converted to an `{error: ...}` object. -/
def executeCustomLogic (rs : RunScript) (value : Option Json) (logicBody : String) :
    Option Json :=
  match rs logicBody value with
  | .ok r => r
  | .error msg =>
    some (.obj [("error",
      .str ("Script Error: " ++ (if msg.isEmpty then "Unknown error" else msg)))])

/-- `TransformerService.applyTransform`: built-in transforms, then the
named custom transforms.  `roundTo2` is the identity on the `Int`
number model; `Number(...)` results that would be `NaN` are abstracted
as `Json.null`. -/
def applyTransform (rs : RunScript) (value : Json) (transformName : String)
    (customTransforms : List (String × TransformDefinition)) : Option Json :=
  match transformName with
  | "roundTo2" => some value
  | "uppercase" =>
    match value with
    | .str s => some (.str (asciiUpper s))
    | v => some v
  | "lowercase" =>
    match value with
    | .str s => some (.str (asciiLower s))
    | v => some v
  | "toNumber" =>
    match value with
    | .num n => some (.num n)
    | .bool b => some (.num (if b then 1 else 0))
    | .null => some (.num 0)
    | .str s =>
      match (jsTrim s).toInt? with
      | some n => some (.num n)
      | none => some .null
    | _ => some .null
  | "toString" => some (.str (jsToStringJ value))
  | _ =>
    match customTransforms.lookup transformName with
    | some td => executeCustomLogic rs (some value) td.logic
    | none => some value

/-- The value a single `FieldRule` writes (inside `transformObject`'s
per-rule `try`): `none` means no write, covering both the explicit
`continue` and a thrown-and-caught per-field error (which only logs). -/
def ruleResultValue (rs : RunScript)
    (customTransforms : List (String × TransformDefinition))
    (source : Option Json) (rule : FieldRule) : Option Json :=
  let step : Except String (Option Json) := do
    let conditionPassed :=
      !(strOptTruthy rule.condition) ||
        evaluateCondition source (rule.condition.getD "")
    let value0 : Option Json ←
      if strOptTruthy rule.condition then
        if conditionPassed then
          match rule.valueIfTrue with
          | some v => pure (some v)
          | none => jpSrcE source rule.source
        else
          match rule.valueIfFalse with
          | some v => pure (some v)
          | none => .error "continue"
      else jpSrcE source rule.source
    let value1 := match value0 with
      | none => rule.default
      | some v => some v
    if rule.required && value1.isNone then
      .error ("Missing required field: " ++ rule.source)
    else
      match value1 with
      | some v =>
        if strOptTruthy rule.transform then
          pure (applyTransform rs v (rule.transform.getD "") customTransforms)
        else pure (some v)
      | none => pure none
  match step with
  | .ok v => v
  | .error _ => none

/-- `TransformerService.transformObject`: fold the rules over an empty
result object — each rule's body *including its `setValue`* sits inside
the per-rule `try`, so a throwing write is logged and absorbed (a
throwing walk performs no visible mutation first) — then apply
spec-level defaults where the result path is still undefined.  The
defaults-phase `setValue` runs outside any `try`, so its `TypeError`
escapes `transform()`. -/
def transformObject (rs : RunScript) (source : Option Json) (mapping : Mapping)
    (customTransforms : List (String × TransformDefinition)) : Except String Json :=
  let afterRules : Json :=
    match mapping.mappings with
    | none => Json.obj []
    | some rules =>
      rules.foldl (fun result rule =>
        match ruleResultValue rs customTransforms source rule with
        | some v =>
          match setValue result rule.target v with
          | .ok r => r
          | .error _ => result
        | none => result) (Json.obj [])
  match mapping.defaults with
  | none => .ok afterRules
  | some ds =>
    ds.foldlM (fun result pd =>
      match getValue (some result) pd.1 with
      | none => setValue result pd.1 pd.2
      | some _ => pure result) afterRules

/-- `TransformerService.transformArray`: resolve `root`; a non-array
resolution yields `[]` (logged, non-fatal); otherwise apply the object
algorithm per element — a per-element throw propagates out of the
`.map` callback — and wrap under a truthy `outputWrapper` (that
`setValue` also runs outside any `try`). -/
def transformArray (rs : RunScript) (source : Option Json) (mapping : Mapping)
    (customTransforms : List (String × TransformDefinition)) : Except String Json :=
  match mapping.root with
  | none => .ok (.arr [])
  | some r =>
    if r.isEmpty then .ok (.arr [])
    else
      match getValue source r with
      | some (.arr xs) => do
        let transformedList ← xs.mapM (fun item =>
          transformObject rs (some item)
            { mapping with type := "OBJECT", root := none } customTransforms)
        match mapping.outputWrapper with
        | some w =>
          if w.isEmpty then pure (.arr transformedList)
          else setValue (.obj []) w (.arr transformedList)
        | none => pure (.arr transformedList)
      | _ => .ok (.arr [])

/-- `TransformerService.transform`: entry point.  No mapping is the
identity; `ARRAY` with a truthy `root` and `CUSTOM` with truthy `logic`
take their branches; everything else (including `DIRECT`) falls through
to the object algorithm. -/
def transform (rs : RunScript) (sourceData : Option Json) (mapping : Option Mapping)
    (customTransforms : List (String × TransformDefinition)) : Except String (Option Json) :=
  match mapping with
  | none => .ok sourceData
  | some m =>
    if m.type = "ARRAY" && strOptTruthy m.root then
      (transformArray rs sourceData m customTransforms).map some
    else if m.type = "CUSTOM" && strOptTruthy m.logic then
      .ok (executeCustomLogic rs sourceData (m.logic.getD ""))
    else (transformObject rs sourceData m customTransforms).map some

/-- An `AuthConfig`: a type tag plus an opaque config map (absent map
modelled as `none`; providers read it through `config || {}`). -/
structure AuthConfig where
  authType : String
  config : Option (List (String × Json)) := none

/-- `authConfig.config || {}` as the providers read it. -/
def authCfgMap (ac : AuthConfig) : List (String × Json) :=
  ac.config.getD []

/-- The closed provider set behind `AuthStrategyFactory.getProvider`. -/
inductive ProviderKind where
  | basic | apiKey | bearer | oauth2 | jwt | custom | noAuth
deriving DecidableEq

/-- `AuthStrategyFactory.getProvider`: dispatch on the upper-cased type
tag; unrecognized tags (and `NONE`) fall back to the no-auth provider.
Each call constructs a fresh provider instance (`new ...Provider()`). -/
def getProviderKind (type' : String) : ProviderKind :=
  match asciiUpper type' with
  | "BASIC" => .basic
  | "API_KEY" => .apiKey
  | "BEARER_TOKEN" => .bearer
  | "OAUTH2_CLIENT_CREDENTIALS" => .oauth2
  | "JWT" => .jwt
  | "CUSTOM" => .custom
  | _ => .noAuth

/-- First falsy field of a required-field list (validation loops of the
JWT and OAuth2 providers). -/
def firstMissingField (cfg : List (String × Json)) : List String → Option String
  | [] => none
  | f :: rest =>
    if jsTruthyOpt (objGet cfg f) then firstMissingField cfg rest else some f

/-- `provider.validate(authConfig)` for each provider of
`auth.strategy`: pure, fails naming the first missing required field. -/
def validateAuth (ac : AuthConfig) : Except String Unit :=
  let cfg := authCfgMap ac
  match getProviderKind ac.authType with
  | .basic =>
    if !jsTruthyOpt (objGet cfg "username") || !jsTruthyOpt (objGet cfg "password") then
      .error "AuthType BASIC requires \"username\" and \"password\" in config"
    else .ok ()
  | .apiKey =>
    if !jsTruthyOpt (objGet cfg "keyName") || !jsTruthyOpt (objGet cfg "keyValue") then
      .error "AuthType API_KEY requires \"keyName\" and \"keyValue\" in config"
    else .ok ()
  | .bearer =>
    if !jsTruthyOpt (objGet cfg "token") && !jsTruthyOpt (objGet cfg "tokenUrl") then
      .error "AuthType BEARER_TOKEN requires either \"token\" or \"tokenUrl\" in config"
    else .ok ()
  | .oauth2 =>
    match firstMissingField cfg ["tokenUrl", "clientId", "clientSecret"] with
    | some f => .error ("AuthType OAUTH2_CLIENT_CREDENTIALS requires \"" ++ f ++ "\" in config")
    | none => .ok ()
  | .custom =>
    if !jsTruthyOpt (objGet cfg "headers") then
      .error "AuthType CUSTOM requires \"headers\" object in config"
    else .ok ()
  | .jwt =>
    match firstMissingField cfg ["issuer", "audience", "privateKeyRef"] with
    | some f => .error ("AuthType JWT requires \"" ++ f ++ "\" in config")
    | none => .ok ()
  | .noAuth => .ok ()

/-- The mutable request draft handed to `inject` (headers plus an index
signature used for query params by some providers). -/
structure RequestConfig where
  headers : List (String × Json) := []
  params : List (String × Json) := []

/-- `value === 'HEADER'`-style strict string comparison on a Json. -/
def isStrEq (v : Json) (s : String) : Bool :=
  match v with
  | .str t => t = s
  | _ => false

/-- `config.field || <default>` where the default is a Json. -/
def cfgOrDefault (cfg : List (String × Json)) (field : String) (dflt : Json) : Json :=
  match objGet cfg field with
  | some v => if jsTruthy v then v else dflt
  | none => dflt

/-- `ApiKeyAuthProvider.inject`: with location `HEADER` (the default
when `location` is falsy) a header named `keyName` is set; the `QUERY`
branch is an explicit no-op in the source ("Query param support could
be added here if needed"). -/
def apiKeyInject (ac : AuthConfig) (req : RequestConfig) : RequestConfig :=
  let cfg := authCfgMap ac
  let location := cfgOrDefault cfg "location" (.str "HEADER")
  let keyName := cfgOrDefault cfg "keyName" (.str "X-API-KEY")
  let keyValue := cfgOrDefault cfg "keyValue" (.str "")
  if isStrEq location "HEADER" then
    { req with headers := mergeObj req.headers [(jsToStringJ keyName, keyValue)] }
  else
    req

/-- `OAuth2Provider`'s per-instance token cache: `cacheKey` to
`(token, expiresAt)`. -/
abbrev OAuth2Cache := List (String × String × Int)

/-- `new OAuth2Provider()` starts with an empty instance cache; the
factory constructs a new instance on every `getProvider` call. -/
def newOAuth2Cache : OAuth2Cache := []

def oauthCacheGet : OAuth2Cache → String → Option (String × Int)
  | [], _ => none
  | (k, e) :: rest, key => if k = key then some e else oauthCacheGet rest key

def oauthCacheSet : OAuth2Cache → String → String × Int → OAuth2Cache
  | [], key, e => [(key, e)]
  | (k, w) :: rest, key, e =>
    if k = key then (k, e) :: rest else (k, w) :: oauthCacheSet rest key e

/-- Oracle for the form-encoded client-credentials POST: given the
token URL and the form fields, either `(access_token, expires_in?)` or
a thrown error message. -/
abbrev OAuth2TokenEndpoint := String → List (String × String) → Except String (String × Option Int)

/-- `config.clientId || ''`-style coercion of a config value into a
form-field string. -/
def formField (cfg : List (String × Json)) (field : String) : String :=
  match objGet cfg field with
  | some v => if jsTruthy v then jsToStringJ v else ""
  | none => ""

/-- Result of one `OAuth2Provider.inject`: the updated request draft,
the provider instance's cache afterwards, and whether a token-endpoint
POST was performed. -/
structure OAuth2InjectOut where
  req : RequestConfig
  cache : OAuth2Cache
  posted : Bool

/-- `OAuth2Provider.inject`: look up the instance cache under
`tokenUrl-clientId`; on a missing/empty/expired token, POST the
client-credentials form and cache the fresh token with a 60s margin
(`now + expiresIn*1000 - 60000`); inject `Authorization: Bearer`. -/
def oauth2Inject (endpoint : OAuth2TokenEndpoint) (cache : OAuth2Cache) (now : Int)
    (ac : AuthConfig) (req : RequestConfig) : Except String OAuth2InjectOut :=
  let cfg := authCfgMap ac
  let tokenUrl := objGet cfg "tokenUrl"
  let clientId := objGet cfg "clientId"
  let cacheKey := jsToString tokenUrl ++ "-" ++ jsToString clientId
  let cached := oauthCacheGet cache cacheKey
  let refreshNeeded :=
    match cached with
    | none => true
    | some (tok, expiresAt) => tok.isEmpty || expiresAt ≤ now
  if refreshNeeded then
    if !jsTruthyOpt tokenUrl then
      .error "Failed to obtain OAuth2 token: tokenUrl is required"
    else
      let form := [("grant_type", "client_credentials"),
                   ("client_id", formField cfg "clientId"),
                   ("client_secret", formField cfg "clientSecret"),
                   ("scope", formField cfg "scope")]
      match endpoint (jsToString tokenUrl) form with
      | .error msg => .error ("Failed to obtain OAuth2 token: " ++ msg)
      | .ok (tok, expiresInRaw) =>
        let expiresIn : Int :=
          match expiresInRaw with
          | some e => if e = 0 then 3600 else e
          | none => 3600
        let cache' := oauthCacheSet cache cacheKey (tok, now + expiresIn * 1000 - 60000)
        .ok { req := { req with
                headers := mergeObj req.headers [("Authorization", .str ("Bearer " ++ tok))] },
              cache := cache', posted := true }
  else
    let tok := (cached.map (·.1)).getD ""
    .ok { req := { req with
            headers := mergeObj req.headers [("Authorization", .str ("Bearer " ++ tok))] },
          cache := cache, posted := false }

/-- One execute invocation's OAuth2 auth step as wired in the code:
`CorrectorEngine.executeSingleCall` fetches its provider through
`AuthStrategyFactory.getProvider`, which constructs a fresh
`OAuth2Provider`, so the inject starts from the empty instance cache. -/
def oauth2InjectViaFactory (endpoint : OAuth2TokenEndpoint) (now : Int)
    (ac : AuthConfig) (req : RequestConfig) : Except String OAuth2InjectOut :=
  oauth2Inject endpoint newOAuth2Cache now ac req

/-- The call-time auth override of `ConnectorRequest.authConfig`. -/
structure OverrideAuth where
  authType : Option String := none
  config : Option (List (String × Json)) := none

/-- `authConfig?.config || authConfig || {}`: the override's `config`
when present (any object is truthy), else the override object itself
spread as a map (its own `authType` field, if any). -/
def overrideAsMap (o : OverrideAuth) : List (String × Json) :=
  match o.config with
  | some c => c
  | none =>
    match o.authType with
    | some t => [("authType", .str t)]
    | none => []

/-- `incomingAuthType = authType || authConfig?.authType`. -/
def incomingAuthType (reqAuthType : Option String) (reqAuthConfig : Option OverrideAuth) :
    Option String :=
  if strOptTruthy reqAuthType then reqAuthType else reqAuthConfig.bind (·.authType)

/-- The controller's effective auth after the override merge: when an
override is present, the resolved type is the *stored* type (`|| 'NONE'`)
and the config maps are spread together, dropping a leaked `authType`
key; otherwise the stored config passes through. -/
def resolveEffectiveAuth (stored : Option AuthConfig) (reqAuthType : Option String)
    (reqAuthConfig : Option OverrideAuth) : Option AuthConfig :=
  if strOptTruthy reqAuthType || reqAuthConfig.isSome then
    let resolvedAuthType :=
      match stored with
      | some sc => if sc.authType.isEmpty then "NONE" else sc.authType
      | none => "NONE"
    let merged := mergeObj
      (match stored with
       | some sc => authCfgMap sc
       | none => [])
      (match reqAuthConfig with
       | some o => overrideAsMap o
       | none => [])
    let cleaned :=
      if jsTruthyOpt (objGet merged "authType") then objDelete merged "authType" else merged
    some { authType := resolvedAuthType, config := some cleaned }
  else stored

/-- Outcome of the boundary's auth resolution inside
`CorrectorController.executeCorrection`: a mismatch rejection, a
validation rejection, or the call into `CorrectorEngine.execute` with
the single merged `AuthConfig`. -/
inductive ControllerOutcome where
  | authMismatch
  | authValidationFailed (msg : String)
  | engineCalled (auth : Option AuthConfig)

/-- The auth gate of `CorrectorController.executeCorrection`: reject
with `AUTH_MISMATCH` when the stored type is not `NONE` and the
incoming type differs from it, before the engine runs; otherwise merge,
validate, and call the engine with the one resolved config. -/
def executeCorrectionAuthGate (stored : Option AuthConfig) (reqAuthType : Option String)
    (reqAuthConfig : Option OverrideAuth) : ControllerOutcome :=
  let storedType : Option String := stored.map (·.authType)
  let incoming := incomingAuthType reqAuthType reqAuthConfig
  if storedType ≠ some "NONE" ∧ storedType ≠ incoming then .authMismatch
  else
    match resolveEffectiveAuth stored reqAuthType reqAuthConfig with
    | some ea =>
      match validateAuth ea with
      | .ok _ => .engineCalled (some ea)
      | .error msg => .authValidationFailed ("Authentication Validation Failed: " ++ msg)
    | none => .engineCalled none

/-- An axios-style error as `CorrectorEngine` sees it: a message and an
optional remote response (`response?.status`, `response?.data`). -/
structure CallError where
  message : String
  respStatus : Option Int := none
  respData : Option Json := none

/-- A compiled `ajv` schema validator (external collaborator): the
boolean verdict and the `errorsText` it would report on failure. -/
structure SchemaV where
  validate : Option Json → Bool
  errorsText : String

/-- `ResilienceConfig`: optional retry count and fixed delay. -/
structure ResilienceConfig where
  retryCount : Option Nat := none
  retryDelayMs : Option Nat := none

/-- `TargetApiConfig`. -/
structure TargetApiConfig where
  url : String
  method : String
  queryParams : List (String × Json) := []
  pathParams : Option (List (String × String)) := none
  resilience : Option ResilienceConfig := none

/-- One workflow step of `MappingConfig.steps`. -/
structure WorkflowStep where
  id : String
  targetApi : TargetApiConfig
  requestMapping : Option Mapping := none
  responseMapping : Option Mapping := none
  saveResultToContextAs : Option String := none

/-- `MappingConfig` as the engine consumes it. -/
structure MappingConfig where
  id : String
  targetApi : TargetApiConfig
  requestMapping : Option Mapping := none
  responseMapping : Option Mapping := none
  errorMapping : Option Mapping := none
  requestSchema : Option SchemaV := none
  responseSchema : Option SchemaV := none
  authConfig : Option AuthConfig := none
  steps : Option (List WorkflowStep) := none
  transforms : List (String × TransformDefinition) := []

/-- The call-time context the controller hands to the engine. -/
structure Ctx where
  method : Option String := none
  queryParams : List (String × Json) := []
  headers : List (String × Json) := []

/-- The outbound transport oracle: the result of the `i`-th
`apiCaller.call` of the run (success body or thrown axios error). -/
abbrev Transport := Nat → Except CallError Json

/-- The auth step as the engine sees it
(`authProvider.inject(requestConfig, authConfig, context)`); provider
dispatch itself is embedded separately (`apiKeyInject`,
`oauth2Inject`, `validateAuth`). -/
abbrev AuthInjectFn := RequestConfig → AuthConfig → Except CallError RequestConfig

/-- Step 0.1 of `executeSingleCall`: resolve query-param values that
are `"$."`-prefixed strings through jsonpath against the payload
(unresolved ones are omitted); other values pass through.  The
un-caught jsonpath throw propagates (`.error`). -/
def resolveQueryParams (payload : Option Json) :
    List (String × Json) → Except String (List (String × Json))
  | [] => .ok []
  | (k, v) :: rest => do
    let tail ← resolveQueryParams payload rest
    match v with
    | .str s =>
      if startsWithDollarDot s then
        match ← jpSrcE payload s with
        | some rv => pure ((k, rv) :: tail)
        | none => pure tail
      else pure ((k, v) :: tail)
    | _ => pure ((k, v) :: tail)

/-- JS `url.replace(':' + placeholder, String(value))`: first
occurrence only. -/
def replaceFirstChars (pat rep : List Char) : List Char → List Char
  | [] => []
  | x :: xs =>
    if pat.isPrefixOf (x :: xs) then rep ++ (x :: xs).drop pat.length
    else x :: replaceFirstChars pat rep xs

def replaceFirst (s pat rep : String) : String :=
  if pat.isEmpty then rep ++ s
  else (⟨replaceFirstChars pat.data rep.data s.data⟩ : String)

/-- Step 1 of `executeSingleCall`: substitute URL path placeholders
from the payload; a missing value leaves the placeholder in place. -/
def resolvePathParams (payload : Option Json) (url : String) :
    Option (List (String × String)) → Except String String
  | none => .ok url
  | some pps =>
    pps.foldlM (fun u pp => do
      match ← jpSrcE payload pp.2 with
      | some v => pure (replaceFirst u (":" ++ pp.1) (jsToStringJ v))
      | none => pure u) url

/-- Step 2 of `executeSingleCall`: the request body after
`requestMapping` (absent or empty `mappings` is passthrough), and
whether the write-method coercion of an undefined body to `{}` fired;
a throw from the transform propagates. -/
def computeTargetPayload (rs : RunScript) (m : MappingConfig) (payload : Option Json)
    (effectiveMethod : String) : Except String (Option Json × Bool) :=
  let t : Except String (Option Json) :=
    match m.requestMapping with
    | none => .ok payload
    | some rm =>
      match rm.mappings with
      | none => .ok payload
      | some [] => .ok payload
      | some _ => transform rs payload (some rm) m.transforms
  match t with
  | .error e => .error e
  | .ok tv =>
    if tv.isNone &&
        (effectiveMethod = "POST" || effectiveMethod = "PUT" || effectiveMethod = "PATCH") then
      .ok (some (.obj []), true)
    else .ok (tv, false)

/-- Step 4 of `executeSingleCall`: the retry loop.  `attempt` is the
global transport-call index, `budget` the remaining retries; returns
the final outcome, the index after the last call, and the list of
delays (ms) waited between attempts. -/
def invokeWithRetry (transport : Transport) (delay : Nat) :
    Nat → Nat → Except CallError Json × Nat × List Nat
  | attempt, budget =>
    match transport attempt with
    | .ok r => (.ok r, attempt + 1, [])
    | .error e =>
      match budget with
      | 0 => (.error e, attempt + 1, [])
      | b + 1 =>
        let (res, nxt, ds) := invokeWithRetry transport delay (attempt + 1) b
        (res, nxt, delay :: ds)

/-- What one `executeSingleCall` produced: its result (or the error it
threw), the transport-call index afterwards, the retry delays waited,
and the effective URL. -/
structure CallOut where
  result : Except CallError (Option Json)
  next : Nat
  delays : List Nat
  url : String

/-- `(context?.method) || mapping.targetApi.method`. -/
def effectiveMethodOf (m : MappingConfig) (ctx : Option Ctx) : String :=
  match ctx with
  | some c =>
    match c.method with
    | some s => if s.isEmpty then m.targetApi.method else s
    | none => m.targetApi.method
  | none => m.targetApi.method

/-- `CorrectorEngine.executeSingleCall`: overrides, query/path
parameter resolution, request transform with write-method coercion (a
transform throw propagates before auth or network), auth inject, the
retry loop, response transform (whose throw also propagates). -/
def executeSingleCall (rs : RunScript) (authInject : AuthInjectFn) (transport : Transport)
    (m : MappingConfig) (payload : Option Json) (ctx : Option Ctx) (start : Nat) : CallOut :=
  let effectiveMethod := effectiveMethodOf m ctx
  let rawQueryParams := mergeObj m.targetApi.queryParams
    (match ctx with | some c => c.queryParams | none => [])
  match resolveQueryParams payload rawQueryParams with
  | .error msg => ⟨.error ⟨msg, none, none⟩, start, [], m.targetApi.url⟩
  | .ok _effectiveQueryParams =>
  match resolvePathParams payload m.targetApi.url m.targetApi.pathParams with
  | .error msg => ⟨.error ⟨msg, none, none⟩, start, [], m.targetApi.url⟩
  | .ok effectiveUrl =>
  match computeTargetPayload rs m payload effectiveMethod with
  | .error msg => ⟨.error ⟨msg, none, none⟩, start, [], effectiveUrl⟩
  | .ok _targetPayloadCoerced =>
  let baseCfg : RequestConfig :=
    { headers := match ctx with | some c => c.headers | none => [], params := [] }
  match (match m.authConfig with
         | none => Except.ok baseCfg
         | some ac => authInject baseCfg ac) with
  | .error e => ⟨.error e, start, [], effectiveUrl⟩
  | .ok _requestConfig =>
  let budget := match m.targetApi.resilience with
    | none => 0
    | some r => r.retryCount.getD 0
  let delay := match m.targetApi.resilience with
    | none => 1000
    | some r => match r.retryDelayMs with
      | none => 1000
      | some d => if d = 0 then 1000 else d
  let (res, nxt, ds) := invokeWithRetry transport delay start budget
  match res with
  | .error e => ⟨.error e, nxt, ds, effectiveUrl⟩
  | .ok targetResponse =>
    match (match m.responseMapping with
           | some rm => transform rs (some targetResponse) (some rm) m.transforms
           | none => Except.ok (some targetResponse)) with
    | .ok result => ⟨.ok result, nxt, ds, effectiveUrl⟩
    | .error msg => ⟨.error ⟨msg, none, none⟩, nxt, ds, effectiveUrl⟩

/-- `{...payload}`: seed the shared workflow context from the payload
(spreading a non-object yields no own enumerable keys). -/
def jsSpread : Option Json → List (String × Json)
  | some (.obj fs) => fs
  | _ => []

/-- The workflow loop of `CorrectorEngine.execute`: run each step's
single call against the shared context, publishing results under
`saveResultToContextAs` (an undefined step result is stored as null in
this model), the final result being the last step's. -/
def runSteps (rs : RunScript) (authInject : AuthInjectFn) (transport : Transport)
    (m : MappingConfig) (ctx : Option Ctx) :
    List WorkflowStep → List (String × Json) → Nat → Option Json →
    Except CallError (Option Json) × Nat
  | [], _, n, last => (.ok last, n)
  | step :: rest, shared, n, _ =>
    let m' := { m with targetApi := step.targetApi,
                       requestMapping := step.requestMapping,
                       responseMapping := step.responseMapping }
    let co := executeSingleCall rs authInject transport m' (some (.obj shared)) ctx n
    match co.result with
    | .error e => (.error e, co.next)
    | .ok stepResult =>
      let shared' :=
        if strOptTruthy step.saveResultToContextAs then
          objSet shared (step.saveResultToContextAs.getD "") (stepResult.getD .null)
        else shared
      runSteps rs authInject transport m ctx rest shared' co.next stepResult

/-- The body of `CorrectorEngine.execute`'s `try` block after the
request-schema gate: workflow steps or a single call, then the
response-schema gate. -/
def executeBody (rs : RunScript) (authInject : AuthInjectFn) (transport : Transport)
    (m : MappingConfig) (payload : Option Json) (ctx : Option Ctx) :
    Except CallError (Option Json) × Nat :=
  let pre : Except CallError (Option Json) × Nat :=
    match m.steps with
    | some (s :: ss) => runSteps rs authInject transport m ctx (s :: ss) (jsSpread payload) 0 none
    | _ =>
      let co := executeSingleCall rs authInject transport m payload ctx 0
      (co.result, co.next)
  match pre with
  | (.error e, n) => (.error e, n)
  | (.ok fin, n) =>
    match m.responseSchema with
    | some sch =>
      if sch.validate fin then (.ok fin, n)
      else (.error ⟨"Schema validation failed: " ++ sch.errorsText, none, none⟩, n)
    | none => (.ok fin, n)

/-- The error source the catch block feeds to `errorMapping`: the
remote response body when truthy and non-empty, else a synthesized
`{message, status}`. -/
def buildErrorSource (e : CallError) : Json :=
  let base : Json :=
    match e.respData with
    | some d => if jsTruthy d then d else .obj []
    | none => .obj []
  if jsKeysEmpty base then
    let base1 :=
      match base with
      | .obj fs => Json.obj (objSet fs "message"
          (.str (if e.message.isEmpty then "Unknown Error" else e.message)))
      | other => other
    match base1 with
    | .obj fs => Json.obj (objSet fs "status"
        (match e.respStatus with
         | some s => if s ≠ 0 then .num s else .str "UNKNOWN"
         | none => .str "UNKNOWN"))
    | other => other
  else base

/-- `CorrectorEngine.execute`: request-schema gate, body, and the catch
that converts any failure through `errorMapping` into a normal result
(note the transformer is called there without custom transforms).
Returns the outcome and the number of transport calls made. -/
def execute (rs : RunScript) (authInject : AuthInjectFn) (transport : Transport)
    (m : MappingConfig) (payload : Option Json) (ctx : Option Ctx) :
    Except CallError (Option Json) × Nat :=
  let attempt : Except CallError (Option Json) × Nat :=
    match m.requestSchema with
    | some sch =>
      if sch.validate payload then executeBody rs authInject transport m payload ctx
      else (.error ⟨"Request Contract Validation Failed: " ++ sch.errorsText, none, none⟩, 0)
    | none => executeBody rs authInject transport m payload ctx
  match attempt with
  | (.ok r, n) => (.ok r, n)
  | (.error e, n) =>
    match m.errorMapping with
    | some em =>
      match transform rs (some (buildErrorSource e)) (some em) [] with
      | .ok r => (.ok r, n)
      | .error msg => (.error ⟨msg, none, none⟩, n)
    | none => (.error e, n)

/-! ## Concrete fixtures used by witnesses and counterexamples -/

/-- A script oracle whose every script throws (message `no script`). -/
def rsNone : RunScript := fun _ _ => .error "no script"

/-- An auth-inject oracle that leaves the request draft unchanged. -/
def authIdent : AuthInjectFn := fun rc _ => .ok rc

/-- A transport that always fails with a connection error. -/
def transportDown : Transport := fun _ => .error { message := "ECONNREFUSED" }

/-- An error mapping `$.message -> $.err`. -/
def M3errMapping : Mapping :=
  { type := "OBJECT", mappings := some [{ source := "$.message", target := "$.err" }] }

/-- A mapping with an always-failing request schema and an error mapping. -/
def M3 : MappingConfig :=
  { id := "m3", targetApi := { url := "https://x", method := "POST" },
    requestSchema := some { validate := fun _ => false, errorsText := "payload must have name" },
    errorMapping := some M3errMapping }

/-- A valid OAuth2 client-credentials auth config. -/
def oauthAC : AuthConfig :=
  { authType := "OAUTH2_CLIENT_CREDENTIALS",
    config := some [("tokenUrl", .str "https://auth.example/token"),
                    ("clientId", .str "cid"), ("clientSecret", .str "sec")] }

/-- A token endpoint granting `tok1` with a 3600s lifetime. -/
def endpoint0 : OAuth2TokenEndpoint := fun _ _ => .ok ("tok1", some 3600)

/-- The `Authorization: Bearer` header write shared by the OAuth2 inject paths. -/
def bearerHeaders (req : RequestConfig) (tok : String) : RequestConfig :=
  { req with headers := mergeObj req.headers [("Authorization", .str ("Bearer " ++ tok))] }

/-- The OAuth2 cache key `tokenUrl-clientId`. -/
def oauthKey (ac : AuthConfig) : String :=
  jsToString (objGet (authCfgMap ac) "tokenUrl") ++ "-" ++
    jsToString (objGet (authCfgMap ac) "clientId")

/-- An API-key auth config with `location: QUERY`. -/
def apiKeyQueryAC : AuthConfig :=
  { authType := "API_KEY",
    config := some [("keyName", .str "api_key"), ("keyValue", .str "s3cret"),
                    ("location", .str "QUERY")] }

/-- An API-key auth config with no `location` (HEADER default). -/
def apiKeyHeaderAC : AuthConfig :=
  { authType := "API_KEY",
    config := some [("keyName", .str "X-Token"), ("keyValue", .str "v1")] }

/-- An OBJECT mapping whose only rule is required and unsatisfiable on
an empty payload. -/
def ageRequiredMapping : Mapping :=
  { type := "OBJECT",
    mappings := some [{ source := "$.age", target := "$.meta.age", required := true }] }

/-- An OBJECT spec whose defaults path crosses a truthy primitive: the
rule writes `$.a = 5`, then the defaults-phase `setValue` walks
`$.a.b.c` through the primitive and throws. -/
def crashMapping : Mapping :=
  { type := "OBJECT", mappings := some [{ source := "$.x", target := "$.a" }],
    defaults := some [("$.a.b.c", .num 1)] }

/-- A write-method mapping whose OBJECT `requestMapping` has an empty
rule list (the engine then passes the payload through untransformed). -/
def M10 : MappingConfig :=
  { id := "m10", targetApi := { url := "https://x", method := "POST" },
    requestMapping := some { type := "OBJECT", mappings := some [] } }

/-- A write-method mapping whose OBJECT `requestMapping` has one rule. -/
def M10b : MappingConfig :=
  { id := "m10b", targetApi := { url := "https://x", method := "POST" },
    requestMapping := some ageRequiredMapping }

/-- `retryCount 2`, `retryDelayMs 50`. -/
def resilTwo : ResilienceConfig := { retryCount := some 2, retryDelayMs := some 50 }

/-- A mapping with the `resilTwo` resilience policy and no auth. -/
def mRetry : MappingConfig :=
  { id := "m8", targetApi := { url := "https://x", method := "GET", resilience := some resilTwo } }

/-- A transport that fails every attempt, tagging the attempt index. -/
def transportBoom : Transport :=
  fun i => .error { message := "boom", respStatus := some (Int.ofNat i) }

/-! ## Helper lemmas -/

/-- A required rule whose source resolves to `undefined` with no
default throws inside the per-rule `try`, is caught, and writes
nothing. -/
theorem ruleResultValue_required_missing (rs : RunScript)
    (ct : List (String × TransformDefinition)) (src : Option Json) (r : FieldRule)
    (hcond : r.condition = none) (hsrc : jpSrcE src r.source = .ok none)
    (hdef : r.default = none) (hreq : r.required = true) :
    ruleResultValue rs ct src r = none := by
  simp [ruleResultValue, hcond, hsrc, hdef, hreq, strOptTruthy, Except.bind, Bind.bind]

/-- A successful `setValue` descent on an object yields an object. -/
theorem setParts_ok_isObj (v : Json) :
    ∀ (parts : List String) (fs : List (String × Json)) (r : Json),
      setParts (.obj fs) parts v = .ok r → ∃ gs, r = .obj gs := by
  intro parts
  induction parts with
  | nil => intro fs r h; exact ⟨fs, (Except.ok.inj h).symm⟩
  | cons seg rest ih =>
    intro fs r h
    cases rest with
    | nil =>
      by_cases hs : seg.isEmpty
      · simp [setParts, hs] at h
        exact ⟨fs, h.symm⟩
      · simp [setParts, hs] at h
        exact ⟨objSet fs seg v, h.symm⟩
    | cons b t =>
      simp only [setParts] at h
      by_cases hs : seg.isEmpty
      · simp only [hs, if_true] at h
        exact ih fs r h
      · simp only [hs, Bool.false_eq_true, if_false] at h
        cases hg : objGet fs seg with
        | none =>
          simp only [hg] at h
          cases hrec : setParts (Json.obj []) (b :: t) v with
          | error e => simp [hrec, Except.map] at h
          | ok c =>
            simp only [hrec, Except.map, Except.ok.injEq] at h
            exact ⟨objSet fs seg c, h.symm⟩
        | some child =>
          simp only [hg] at h
          by_cases ht : jsTruthy child
          · simp only [ht, if_true] at h
            cases child with
            | obj cfs =>
              cases hrec : setParts (Json.obj cfs) (b :: t) v with
              | error e => simp [hrec, Except.map] at h
              | ok c =>
                simp only [hrec, Except.map, Except.ok.injEq] at h
                exact ⟨objSet fs seg c, h.symm⟩
            | arr xs => exact ⟨fs, (Except.ok.inj h).symm⟩
            | null => simp [jsTruthy] at ht
            | bool bb =>
              by_cases hne : segsHaveNonempty (b :: t)
              · simp [hne] at h
              · simp only [hne, Bool.false_eq_true, if_false] at h
                exact ⟨fs, (Except.ok.inj h).symm⟩
            | num n =>
              by_cases hne : segsHaveNonempty (b :: t)
              · simp [hne] at h
              · simp only [hne, Bool.false_eq_true, if_false] at h
                exact ⟨fs, (Except.ok.inj h).symm⟩
            | str s =>
              by_cases hne : segsHaveNonempty (b :: t)
              · simp [hne] at h
              · simp only [hne, Bool.false_eq_true, if_false] at h
                exact ⟨fs, (Except.ok.inj h).symm⟩
          · simp only [eq_false_intro ht, if_false] at h
            cases hrec : setParts (Json.obj []) (b :: t) v with
            | error e => simp [hrec, Except.map] at h
            | ok c =>
              simp only [hrec, Except.map, Except.ok.injEq] at h
              exact ⟨objSet fs seg c, h.symm⟩

/-- A successful `setValue` on an object yields an object. -/
theorem setValue_ok_isObj (v : Json) (path : String) (fs : List (String × Json)) (r : Json) :
    setValue (.obj fs) path v = .ok r → ∃ gs, r = .obj gs :=
  setParts_ok_isObj v (splitDot (cleanPath path)) fs r

/-- The rules phase of `transformObject` is total (every per-rule throw
is caught) and keeps the accumulator an object. -/
theorem foldRules_isObj (rs : RunScript) (ct : List (String × TransformDefinition))
    (src : Option Json) :
    ∀ (rules : List FieldRule) (fs : List (String × Json)),
      ∃ gs, List.foldl (fun result rule =>
          match ruleResultValue rs ct src rule with
          | some v =>
            match setValue result rule.target v with
            | .ok r => r
            | .error _ => result
          | none => result) (Json.obj fs) rules = .obj gs := by
  intro rules
  induction rules with
  | nil => intro fs; exact ⟨fs, rfl⟩
  | cons r rest ih =>
    intro fs
    simp only [List.foldl_cons]
    cases hr : ruleResultValue rs ct src r with
    | none => simpa [hr] using ih fs
    | some v =>
      dsimp only
      cases hs : setValue (Json.obj fs) r.target v with
      | error e => exact ih fs
      | ok w =>
        obtain ⟨gs, hgs⟩ := setValue_ok_isObj v r.target fs w hs
        rw [hgs]
        exact ih gs

/-- A completed defaults phase keeps the result an object. -/
theorem foldDefaults_ok_isObj :
    ∀ (ds : List (String × Json)) (fs : List (String × Json)) (r : Json),
      List.foldlM (fun result pd =>
          match getValue (some result) pd.1 with
          | none => setValue result pd.1 pd.2
          | some _ => pure result) (Json.obj fs) ds = .ok r →
      ∃ gs, r = .obj gs := by
  intro ds
  induction ds with
  | nil =>
    intro fs r h
    simp only [List.foldlM_nil] at h
    exact ⟨fs, (Except.ok.inj h).symm⟩
  | cons pd rest ih =>
    intro fs r h
    simp only [List.foldlM_cons] at h
    cases hv : getValue (some (Json.obj fs)) pd.1 with
    | some w =>
      rw [hv] at h
      simp only [pure_bind] at h
      exact ih fs r h
    | none =>
      rw [hv] at h
      cases hs : setValue (Json.obj fs) pd.1 pd.2 with
      | error e => rw [hs] at h; exact absurd h (by simp [Except.bind, Bind.bind])
      | ok w =>
        rw [hs] at h
        obtain ⟨gs, hgs⟩ := setValue_ok_isObj pd.2 pd.1 fs w hs
        rw [hgs] at h
        simp only [Except.bind, Bind.bind] at h
        exact ih gs r h

/-- `transformObject` with no spec-level defaults never throws and
returns an object, whatever the rules do. -/
theorem transformObject_no_defaults (rs : RunScript) (src : Option Json) (m : Mapping)
    (ct : List (String × TransformDefinition)) (hd : m.defaults = none) :
    ∃ fs, transformObject rs src m ct = .ok (.obj fs) := by
  cases hm : m.mappings with
  | none => exact ⟨[], by simp [transformObject, hm, hd]⟩
  | some rules =>
    obtain ⟨gs, hgs⟩ := foldRules_isObj rs ct src rules []
    exact ⟨gs, by simp only [transformObject, hm, hd, hgs]⟩

/-- Whenever `transformObject` returns (does not throw), its result is
an object. -/
theorem transformObject_ok_isObj (rs : RunScript) (src : Option Json) (m : Mapping)
    (ct : List (String × TransformDefinition)) (r : Json)
    (h : transformObject rs src m ct = .ok r) : ∃ fs, r = .obj fs := by
  simp only [transformObject] at h
  cases hm : m.mappings with
  | none =>
    simp only [hm] at h
    cases hd : m.defaults with
    | none => simp only [hd] at h; exact ⟨[], (Except.ok.inj h).symm⟩
    | some ds => simp only [hd] at h; exact foldDefaults_ok_isObj ds [] r h
  | some rules =>
    simp only [hm] at h
    obtain ⟨gs, hgs⟩ := foldRules_isObj rs ct src rules []
    rw [hgs] at h
    cases hd : m.defaults with
    | none => simp only [hd] at h; exact ⟨gs, (Except.ok.inj h).symm⟩
    | some ds => simp only [hd] at h; exact foldDefaults_ok_isObj ds gs r h

/-- `transform` on an OBJECT spec with no defaults is total and yields
a defined object. -/
theorem transform_object_no_defaults (rs : RunScript) (src : Option Json) (m : Mapping)
    (ct : List (String × TransformDefinition)) (htype : m.type = "OBJECT")
    (hd : m.defaults = none) :
    ∃ fs, transform rs src (some m) ct = .ok (some (.obj fs)) := by
  obtain ⟨fs, hfs⟩ := transformObject_no_defaults rs src m ct hd
  refine ⟨fs, ?_⟩
  simp [transform, htype, hfs, Except.map]

/-- `transform` on an OBJECT spec never returns undefined or null:
any non-throwing run yields an object. -/
theorem transform_object_ok_isObj (rs : RunScript) (src : Option Json) (m : Mapping)
    (ct : List (String × TransformDefinition)) (r : Option Json)
    (htype : m.type = "OBJECT") (h : transform rs src (some m) ct = .ok r) :
    ∃ fs, r = some (.obj fs) := by
  simp only [transform, htype] at h
  simp only [show (decide ("OBJECT" = "ARRAY") && strOptTruthy m.root) = false from by simp,
    show (decide ("OBJECT" = "CUSTOM") && strOptTruthy m.logic) = false from by simp] at h
  cases hto : transformObject rs src m ct with
  | error e => rw [hto] at h; exact absurd h (by simp [Except.map])
  | ok w =>
    rw [hto] at h
    obtain ⟨fs, hfs⟩ := transformObject_ok_isObj rs src m ct w hto
    simp only [Except.map] at h
    exact ⟨fs, by rw [← Except.ok.inj h, hfs]⟩

/-- The retry loop under an always-failing transport: starting at index
`attempt` with `budget` retries left, it consults the transport at
`attempt .. attempt+budget`, waits `budget` fixed delays, and surfaces
the last attempt's error unchanged. -/
theorem invokeWithRetry_all_fail (transport : Transport) (d : Nat) (errs : Nat → CallError)
    (h : ∀ i, transport i = .error (errs i)) :
    ∀ (budget attempt : Nat),
      invokeWithRetry transport d attempt budget =
        (.error (errs (attempt + budget)), attempt + budget + 1, List.replicate budget d) := by
  intro budget
  induction budget with
  | zero =>
    intro attempt
    unfold invokeWithRetry
    rw [h attempt]
    simp
  | succ b ih =>
    intro attempt
    unfold invokeWithRetry
    rw [h attempt]
    simp only []
    rw [ih (attempt + 1)]
    have h1 : attempt + 1 + b = attempt + (b + 1) := by omega
    simp [h1, List.replicate_succ]

/-! ## Claim theorems -/

/-- C1: the claim says `transform` with a DIRECT spec (and with no spec
at all) returns the source unchanged.  The no-spec half holds, but a
spec of type DIRECT falls through to the object algorithm in
`TransformerService.transform` and yields the empty object, dropping
the source — contradicting the claim (and the repository's own TC-05
"Direct Reply" documentation and seed configurations). -/
theorem C1_direct_not_identity :
    (∀ (rs : RunScript) (src : Option Json) (ct : List (String × TransformDefinition)),
        transform rs src none ct = .ok src) ∧
    transform rsNone (some (.obj [("a", .num 1)])) (some { type := "DIRECT" }) [] =
      .ok (some (.obj [])) ∧
    Json.obj [] ≠ Json.obj [("a", .num 1)] := by
  refine ⟨fun rs src ct => rfl, rfl, ?_⟩
  intro h
  simp at h

/-- C2: at the boundary, when the stored auth type is not NONE and the
incoming call-time auth type (from `authType` or `authConfig.authType`)
differs from it, `CorrectorController.executeCorrection` returns the
AUTH_MISMATCH envelope — an outcome distinct from `engineCalled`, so the
engine never runs; and whenever the engine is called it receives exactly
the one boundary-resolved `AuthConfig`. -/
theorem C2_auth_mismatch_rejected (sc : AuthConfig) (t : String)
    (reqAuthType : Option String) (reqAuthConfig : Option OverrideAuth)
    (hstored : sc.authType ≠ "NONE")
    (hin : incomingAuthType reqAuthType reqAuthConfig = some t)
    (hne : t ≠ sc.authType) :
    executeCorrectionAuthGate (some sc) reqAuthType reqAuthConfig = .authMismatch ∧
    (∀ (stored : Option AuthConfig) (rt : Option String) (rc : Option OverrideAuth)
        (a : Option AuthConfig),
      executeCorrectionAuthGate stored rt rc = .engineCalled a →
      a = resolveEffectiveAuth stored rt rc) := by
  constructor
  · have hc : (some sc.authType ≠ (some "NONE" : Option String)) ∧
        (some sc.authType ≠ some t) :=
      ⟨fun h => hstored (Option.some.inj h), fun h => hne (Option.some.inj h).symm⟩
    simp only [executeCorrectionAuthGate, hin, Option.map_some']
    rw [if_pos hc]
  · intro stored rt rc a h
    simp only [executeCorrectionAuthGate] at h
    split at h
    · exact ControllerOutcome.noConfusion h
    · split at h
      next ea heq =>
        split at h
        · injection h with h'
          rw [heq, ← h']
        · exact ControllerOutcome.noConfusion h
      next heq =>
        injection h with h'
        rw [heq, ← h']

/-- C2 witness: a stored BASIC mapping called with an API_KEY override
is rejected with AUTH_MISMATCH. -/
theorem C2_auth_mismatch_rejected_witness :
    executeCorrectionAuthGate (some { authType := "BASIC" }) (some "API_KEY") none =
      ControllerOutcome.authMismatch :=
  (C2_auth_mismatch_rejected { authType := "BASIC" } "API_KEY" (some "API_KEY") none
    (by decide) rfl (by decide)).1

/-- C3 counterexample: with a failing `requestSchema` AND a configured
`errorMapping`, `CorrectorEngine.execute` does *not* propagate the
request-contract failure — the catch block converts it through the
error mapping into a normal `.ok` result (with zero transport calls),
refuting the claim that errorMapping conversion applies only to
failures from the authentication step onward. -/
theorem C3_counterexample :
    execute rsNone authIdent transportDown M3 (some (.obj [])) none =
      (.ok (some (.obj [("err",
        .str "Request Contract Validation Failed: payload must have name")])), 0) := rfl

/-- C3 amended: a failing `requestSchema` aborts before any transport
call (zero calls made); the failure propagates to the caller only when
no `errorMapping` is configured — when one is configured, even this
pre-network failure is converted into a normal result. -/
theorem C3_request_schema_gate (rs : RunScript) (authInject : AuthInjectFn)
    (transport : Transport) (m : MappingConfig) (payload : Option Json) (ctx : Option Ctx)
    (sch : SchemaV) (hsch : m.requestSchema = some sch)
    (hfail : sch.validate payload = false) :
    (execute rs authInject transport m payload ctx).2 = 0 ∧
    (m.errorMapping = none →
      execute rs authInject transport m payload ctx =
        (.error ⟨"Request Contract Validation Failed: " ++ sch.errorsText, none, none⟩, 0)) ∧
    (∀ em, m.errorMapping = some em →
      execute rs authInject transport m payload ctx =
        (match transform rs (some (buildErrorSource
            ⟨"Request Contract Validation Failed: " ++ sch.errorsText, none, none⟩))
            (some em) [] with
         | .ok r => .ok r
         | .error msg => .error ⟨msg, none, none⟩, 0)) := by
  refine ⟨?_, ?_, ?_⟩
  · cases hem : m.errorMapping with
    | none => simp [execute, hsch, hfail, hem]
    | some em =>
      cases htr : transform rs (some (buildErrorSource
          ⟨"Request Contract Validation Failed: " ++ sch.errorsText, none, none⟩))
          (some em) [] <;>
        simp [execute, hsch, hfail, hem, htr]
  · intro hem
    simp [execute, hsch, hfail, hem]
  · intro em hem
    cases htr : transform rs (some (buildErrorSource
        ⟨"Request Contract Validation Failed: " ++ sch.errorsText, none, none⟩))
        (some em) [] <;>
      simp [execute, hsch, hfail, hem, htr]

/-- C3 witness: the amended statement at the concrete fixture. -/
theorem C3_request_schema_gate_witness :
    (execute rsNone authIdent transportDown M3 (some (.obj [])) none).2 = 0 ∧
    execute rsNone authIdent transportDown M3 (some (.obj [])) none =
      (.ok (some (.obj [("err",
        .str "Request Contract Validation Failed: payload must have name")])), 0) := by
  have h := C3_request_schema_gate rsNone authIdent transportDown M3 (some (.obj [])) none
    { validate := fun _ => false, errorsText := "payload must have name" } rfl rfl
  exact ⟨h.1, h.2.2 M3errMapping rfl⟩

/-- C4 counterexample: two execute invocations with the same `tokenUrl`
and `clientId` inside the token's lifetime (now 0 and now 1000ms, with
a 3600s-60s cached lifetime) *both* POST to the token endpoint, because
`AuthStrategyFactory.getProvider` constructs a fresh `OAuth2Provider`
per call and its token cache is a per-instance field — refuting the
claimed process-wide reuse. -/
theorem C4_counterexample :
    (oauth2InjectViaFactory endpoint0 0 oauthAC ⟨[], []⟩).map (·.posted) = .ok true ∧
    (oauth2InjectViaFactory endpoint0 1000 oauthAC ⟨[], []⟩).map (·.posted) = .ok true :=
  ⟨rfl, rfl⟩

/-- C4 amended: the OAuth2 token cache is per provider *instance*,
keyed `tokenUrl-clientId` with a 60s margin off the reported lifetime
(`now + expiresIn*1000 - 60000`): a first inject on a fresh instance
POSTs and caches; a second inject on the *same* instance within the
cached lifetime reuses the token and performs no POST.  Across execute
invocations the factory supplies a fresh instance, so the reuse never
materializes there (see the counterexample). -/
theorem C4_instance_cache_reuse (endpoint : OAuth2TokenEndpoint) (ac : AuthConfig)
    (req1 req2 : RequestConfig) (now1 now2 : Int) (tok : String) (expIn : Int)
    (hurl : jsTruthyOpt (objGet (authCfgMap ac) "tokenUrl") = true)
    (hend : endpoint (jsToString (objGet (authCfgMap ac) "tokenUrl"))
        [("grant_type", "client_credentials"),
         ("client_id", formField (authCfgMap ac) "clientId"),
         ("client_secret", formField (authCfgMap ac) "clientSecret"),
         ("scope", formField (authCfgMap ac) "scope")] = .ok (tok, some expIn))
    (hexp : expIn ≠ 0) (htok : tok.isEmpty = false)
    (hfresh : now2 < now1 + expIn * 1000 - 60000) :
    oauth2Inject endpoint newOAuth2Cache now1 ac req1 =
      .ok ⟨bearerHeaders req1 tok, [(oauthKey ac, tok, now1 + expIn * 1000 - 60000)], true⟩ ∧
    oauth2Inject endpoint [(oauthKey ac, tok, now1 + expIn * 1000 - 60000)] now2 ac req2 =
      .ok ⟨bearerHeaders req2 tok, [(oauthKey ac, tok, now1 + expIn * 1000 - 60000)], false⟩ := by
  constructor
  · simp only [oauth2Inject, newOAuth2Cache, oauthCacheGet, hurl, hend, hexp]
    simp [oauthCacheSet, hexp, bearerHeaders, oauthKey]
  · simp only [oauth2Inject, oauthKey, oauthCacheGet, if_pos rfl]
    simp [bearerHeaders]
    intro h
    rcases h with h | h
    · rw [h] at htok; exact absurd htok (by simp)
    · omega

/-- C4 witness: the amended statement at the concrete fixture. -/
theorem C4_instance_cache_reuse_witness :
    oauth2Inject endpoint0 newOAuth2Cache 0 oauthAC ⟨[], []⟩ =
      .ok ⟨⟨[("Authorization", .str "Bearer tok1")], []⟩,
        [("https://auth.example/token-cid", "tok1", 3540000)], true⟩ ∧
    oauth2Inject endpoint0 [("https://auth.example/token-cid", "tok1", 3540000)] 1000
        oauthAC ⟨[], []⟩ =
      .ok ⟨⟨[("Authorization", .str "Bearer tok1")], []⟩,
        [("https://auth.example/token-cid", "tok1", 3540000)], false⟩ :=
  C4_instance_cache_reuse endpoint0 oauthAC ⟨[], []⟩ ⟨[], []⟩ 0 1000 "tok1" 3600
    rfl rfl (by decide) rfl (by decide)

/-- C5 counterexample: an API_KEY config with `location: QUERY` leaves
the request draft completely unchanged — no query parameter named
`keyName` is injected (the QUERY branch of `ApiKeyAuthProvider.inject`
is a no-op), refuting the claimed key-in-query injection. -/
theorem C5_counterexample :
    apiKeyInject apiKeyQueryAC ⟨[], []⟩ = ⟨[], []⟩ ∧
    objGet (apiKeyInject apiKeyQueryAC ⟨[], []⟩).params "api_key" = none := ⟨rfl, rfl⟩

/-- C5 amended: with `location: QUERY`, `ApiKeyAuthProvider.inject`
returns the request draft unchanged (query injection unimplemented);
with `location` absent (the HEADER default) it injects a header named
`keyName` valued `keyValue`. -/
theorem C5_api_key_inject (ac : AuthConfig) (req : RequestConfig) (kn kv : String)
    (hkn : objGet (authCfgMap ac) "keyName" = some (.str kn)) (hkn0 : kn.isEmpty = false)
    (hkv : objGet (authCfgMap ac) "keyValue" = some (.str kv)) (hkv0 : kv.isEmpty = false) :
    (objGet (authCfgMap ac) "location" = some (.str "QUERY") → apiKeyInject ac req = req) ∧
    (objGet (authCfgMap ac) "location" = none →
      apiKeyInject ac req = { req with headers := mergeObj req.headers [(kn, .str kv)] }) := by
  constructor
  · intro hloc
    simp only [apiKeyInject, cfgOrDefault]
    rw [hloc]
    simp only [show (if jsTruthy (Json.str "QUERY") = true then Json.str "QUERY"
        else Json.str "HEADER") = Json.str "QUERY" from rfl]
    simp [show isStrEq (Json.str "QUERY") "HEADER" = false from rfl]
  · intro hloc
    simp only [apiKeyInject, cfgOrDefault]
    rw [hloc, hkn, hkv]
    simp [jsTruthy, hkn0, hkv0, isStrEq, jsToStringJ]

/-- C5 witness: the HEADER default injects the named header. -/
theorem C5_api_key_inject_witness :
    apiKeyInject apiKeyHeaderAC ⟨[], []⟩ = ⟨[("X-Token", .str "v1")], []⟩ :=
  (C5_api_key_inject apiKeyHeaderAC ⟨[], []⟩ "X-Token" "v1" rfl rfl rfl rfl).2 rfl

/-- C6: a required FieldRule whose source resolves to `undefined` with
no default is absorbed non-fatally — `transformObject` produces exactly
the result it would produce without that rule (the field is omitted, no
exception escapes, and all other rules' fields are unaffected). -/
theorem C6_required_missing_nonfatal (rs : RunScript)
    (ct : List (String × TransformDefinition)) (src : Option Json) (m : Mapping)
    (pre post : List FieldRule) (r : FieldRule)
    (hcond : r.condition = none) (hsrc : jpSrcE src r.source = .ok none)
    (hdef : r.default = none) (hreq : r.required = true) :
    transformObject rs src { m with mappings := some (pre ++ r :: post) } ct =
      transformObject rs src { m with mappings := some (pre ++ post) } ct := by
  have hr : ruleResultValue rs ct src r = none :=
    ruleResultValue_required_missing rs ct src r hcond hsrc hdef hreq
  simp only [transformObject, List.foldl_append, List.foldl_cons, hr]

/-- C6 witness: the spec's example — a required `$.age` rule on a
payload without `age` is omitted while the `$.name` rule still
produces its field. -/
theorem C6_required_missing_nonfatal_witness :
    transformObject rsNone (some (.obj [("name", .str "Ada")]))
      { type := "OBJECT",
        mappings := some ([{ source := "$.name", target := "$.fullName" }] ++
          { source := "$.age", target := "$.meta.age", required := true } :: []) } [] =
      transformObject rsNone (some (.obj [("name", .str "Ada")]))
        { type := "OBJECT",
          mappings := some ([{ source := "$.name", target := "$.fullName" }] ++ []) } [] ∧
    transformObject rsNone (some (.obj [("name", .str "Ada")]))
      { type := "OBJECT",
        mappings := some ([{ source := "$.name", target := "$.fullName" }] ++
          { source := "$.age", target := "$.meta.age", required := true } :: []) } [] =
      .ok (.obj [("fullName", .str "Ada")]) :=
  ⟨C6_required_missing_nonfatal rsNone [] (some (.obj [("name", .str "Ada")]))
      { type := "OBJECT" } [{ source := "$.name", target := "$.fullName" }] []
      { source := "$.age", target := "$.meta.age", required := true } rfl rfl rfl rfl,
    rfl⟩

/-- C7 counterexample: `transform` can throw.  An OBJECT spec whose
rule writes `$.a = 5` and whose spec-level defaults contain the path
`$.a.b.c` makes the defaults-phase `setValue` — which runs outside any
`try` in `transformObject` — walk through the truthy primitive `5` and
throw a `TypeError` past `transform()`, refuting "never throws for any
input". -/
theorem C7_counterexample :
    transform rsNone (some (.obj [("x", .num 5)])) (some crashMapping) [] =
      .error "TypeError: cannot create property on a primitive" := rfl

/-- C7 amended: the scripted and per-rule failure paths are absorbed —
in particular a CUSTOM spec whose script throws yields an
`{error: "Script Error: ..."}` result, never a propagated exception —
but `transform` is not throw-free in general: the defaults-phase (and
outputWrapper) `setValue` runs outside any `try`, and a path crossing
a truthy primitive throws past `transform()` (see the
counterexample). -/
theorem C7_custom_script_error_absorbed (rs : RunScript) (src : Option Json) (m : Mapping)
    (ct : List (String × TransformDefinition)) (l msg : String)
    (htype : m.type = "CUSTOM") (hlogic : m.logic = some l) (hl : l.isEmpty = false)
    (hrun : rs l src = .error msg) :
    transform rs src (some m) ct =
      .ok (some (.obj [("error",
        .str ("Script Error: " ++ (if msg.isEmpty then "Unknown error" else msg)))])) := by
  simp [transform, htype, hlogic, strOptTruthy, hl, executeCustomLogic, hrun]

/-- C7 witness: a throwing script at a concrete input. -/
theorem C7_custom_script_error_absorbed_witness :
    transform rsNone (some (.obj [])) (some { type := "CUSTOM", logic := some "oops" }) [] =
      .ok (some (.obj [("error", .str "Script Error: no script")])) :=
  C7_custom_script_error_absorbed rsNone (some (.obj [])) _ [] "oops" "no script" rfl rfl rfl rfl

/-- C8: with `retryCount N` and `retryDelayMs d` configured and every
transport attempt failing, `executeSingleCall` consults the transport
exactly N+1 times (indices start..start+N), waits the fixed delay `d`
between consecutive attempts (N delays), and surfaces the last
attempt's error unchanged; N = 0 gives exactly one attempt. -/
theorem C8_retry_exhaustion (rs : RunScript) (authInject : AuthInjectFn) (transport : Transport)
    (errs : Nat → CallError) (m : MappingConfig) (payload : Option Json) (ctx : Option Ctx)
    (start N d : Nat) (qps : List (String × Json)) (u : String) (tp : Option Json × Bool)
    (hfail : ∀ i, transport i = .error (errs i))
    (hres : m.targetApi.resilience = some { retryCount := some N, retryDelayMs := some d })
    (hd : d ≠ 0)
    (hauth : m.authConfig = none)
    (hq : resolveQueryParams payload (mergeObj m.targetApi.queryParams
        (match ctx with | some c => c.queryParams | none => [])) = .ok qps)
    (hp : resolvePathParams payload m.targetApi.url m.targetApi.pathParams = .ok u)
    (htp : computeTargetPayload rs m payload (effectiveMethodOf m ctx) = .ok tp) :
    executeSingleCall rs authInject transport m payload ctx start =
      ⟨.error (errs (start + N)), start + N + 1, List.replicate N d, u⟩ := by
  simp only [executeSingleCall, hq, hp, htp, hauth, hres, Option.getD_some, if_neg hd]
  rw [invokeWithRetry_all_fail transport d errs hfail N start]

/-- C8 witness: retryCount 2 and an always-failing transport make
exactly 3 calls with two 50ms delays and surface the third error. -/
theorem C8_retry_exhaustion_witness :
    executeSingleCall rsNone authIdent transportBoom mRetry (some (.obj [])) none 0 =
      ⟨.error { message := "boom", respStatus := some 2 }, 3, [50, 50], "https://x"⟩ :=
  C8_retry_exhaustion rsNone authIdent transportBoom
    (fun i => { message := "boom", respStatus := some (Int.ofNat i) }) mRetry
    (some (.obj [])) none 0 2 50 [] "https://x" (some (.obj []), false)
    (fun i => rfl) rfl (by decide) rfl rfl rfl rfl

/-- C9: for an ARRAY spec with a (truthy) root path, a root that does
not resolve to an array yields the empty sequence without throwing,
and a root resolving to an array yields the object algorithm applied
per element, wrapped under a truthy `outputWrapper` and bare
otherwise. -/
theorem C9_array_spec (rs : RunScript) (src : Option Json) (m : Mapping)
    (ct : List (String × TransformDefinition)) (r : String)
    (htype : m.type = "ARRAY") (hroot : m.root = some r) (hr : r.isEmpty = false) :
    ((∀ xs, getValue src r ≠ some (.arr xs)) →
        transform rs src (some m) ct = .ok (some (.arr []))) ∧
    (∀ xs, getValue src r = some (.arr xs) →
      transform rs src (some m) ct =
        (match xs.mapM (fun item =>
            transformObject rs (some item) { m with type := "OBJECT", root := none } ct) with
         | .error e => .error e
         | .ok lst =>
           match m.outputWrapper with
           | some w =>
             if w.isEmpty then .ok (some (.arr lst))
             else (setValue (.obj []) w (.arr lst)).map some
           | none => .ok (some (.arr lst)))) := by
  constructor
  · intro hna
    simp only [transform, htype, hroot, strOptTruthy, hr]
    simp only [transformArray, hroot, hr]
    cases hv : getValue src r with
    | none => simp [Except.map]
    | some v =>
      cases v with
      | arr xs => exact absurd hv (hna xs)
      | null => simp [Except.map]
      | bool b => simp [Except.map]
      | num n => simp [Except.map]
      | str s => simp [Except.map]
      | obj fs => simp [Except.map]
  · intro xs hv
    simp only [transform, htype, hroot, strOptTruthy, hr]
    simp only [transformArray, hroot, hr, hv]
    cases hmm : xs.mapM (fun item =>
        transformObject rs (some item) { m with type := "OBJECT", root := none } ct) with
    | error e => simp [hmm, Except.map, Except.bind, Bind.bind]
    | ok lst =>
      cases hw : m.outputWrapper with
      | none => simp [hmm, hw, Except.map, Except.bind, Bind.bind, pure, Except.pure]
      | some w =>
        by_cases hwe : w.isEmpty
        · simp [hmm, hw, hwe, Except.map, Except.bind, Bind.bind, pure, Except.pure]
        · simp only [hmm, hw, hwe, Except.bind, Bind.bind, if_false]
          cases hs : setValue (Json.obj []) w (.arr lst) <;>
            simp [hs, Except.map, Except.bind, Bind.bind]

/-- C9 witness: the spec's example — `root: "$.items"` over two items
maps `$.id` to `$.value` per element. -/
theorem C9_array_spec_witness :
    transform rsNone
      (some (.obj [("items", .arr [.obj [("id", .num 1)], .obj [("id", .num 2)]])]))
      (some { type := "ARRAY", root := some "$.items",
              mappings := some [{ source := "$.id", target := "$.value" }] }) [] =
      .ok (some (.arr [.obj [("value", .num 1)], .obj [("value", .num 2)]])) :=
  (C9_array_spec rsNone
      (some (.obj [("items", .arr [.obj [("id", .num 1)], .obj [("id", .num 2)]])]))
      _ [] "$.items" rfl rfl rfl).2 [.obj [("id", .num 1)], .obj [("id", .num 2)]] rfl

/-- C10 counterexample: an OBJECT `requestMapping` with an *empty* rule
list makes the engine pass the raw payload through (transform is never
applied), so an undefined payload on a POST still triggers the
empty-object coercion — refuting the claim's "cannot be triggered by an
OBJECT requestMapping". -/
theorem C10_counterexample :
    M10.requestMapping = some { type := "OBJECT", mappings := some [] } ∧
    computeTargetPayload rsNone M10 none "POST" = .ok (some (.obj []), true) := ⟨rfl, rfl⟩

/-- C10 amended: `transform` on an OBJECT spec never returns undefined
or null — with no spec-level defaults it always returns an object,
even when every rule fails or there are no rules, and any non-throwing
run returns an object in general (a defaults path over a truthy
primitive can instead throw, see the C7 analysis).  Consequently the
write-method coercion cannot fire when an OBJECT `requestMapping` has
at least one rule and its transform completes; only the empty-rules
passthrough (counterexample) or a thrown transform can leave it
reachable. -/
theorem C10_object_transform_total (rs : RunScript) (src : Option Json) (m : Mapping)
    (ct : List (String × TransformDefinition)) (htype : m.type = "OBJECT") :
    (m.defaults = none → ∃ fs, transform rs src (some m) ct = .ok (some (.obj fs))) ∧
    (∀ r, transform rs src (some m) ct = .ok r → ∃ fs, r = some (.obj fs)) ∧
    (∀ (mc : MappingConfig) (payload : Option Json) (method : String) (rm : Mapping)
        (rls : List FieldRule) (tp : Option Json × Bool),
      mc.requestMapping = some rm → rm.type = "OBJECT" → rm.mappings = some rls → rls ≠ [] →
      computeTargetPayload rs mc payload method = .ok tp → tp.2 = false) := by
  refine ⟨fun hd => transform_object_no_defaults rs src m ct htype hd,
    fun r h => transform_object_ok_isObj rs src m ct r htype h, ?_⟩
  intro mc payload method rm rls tp hrm hrt hmap hne htp
  cases rls with
  | nil => exact absurd rfl hne
  | cons rr rest =>
    simp only [computeTargetPayload, hrm, hmap] at htp
    cases htr : transform rs payload (some rm) mc.transforms with
    | error e => rw [htr] at htp; exact absurd htp (by simp)
    | ok tv =>
      rw [htr] at htp
      obtain ⟨fs, hfs⟩ := transform_object_ok_isObj rs payload rm mc.transforms tv hrt htr
      rw [hfs] at htp
      simp only [Option.isNone_some, Bool.false_and, if_false] at htp
      rw [← Except.ok.inj htp]

/-- C10 witness: the all-rules-fail OBJECT spec (no defaults) still
yields an object, and the one-rule OBJECT requestMapping instance of
the engine conjunct. -/
theorem C10_object_transform_total_witness :
    (∃ fs, transform rsNone none (some ageRequiredMapping) [] = .ok (some (.obj fs))) ∧
    ((some (Json.obj []), false) : Option Json × Bool).2 = false := by
  have h := C10_object_transform_total rsNone none ageRequiredMapping [] rfl
  exact ⟨h.1 rfl, h.2.2 M10b none "POST" ageRequiredMapping
    [{ source := "$.age", target := "$.meta.age", required := true }]
    (some (.obj []), false) rfl rfl rfl (by simp) rfl⟩
